import Mathlib

/-!
Shallow embedding of the download module of `biodbtools`
(`src/download.rs` and `src/alignments.rs`).

The state visible to the program is modelled by `World`:
  * `fs`      — the local filesystem, an association list from paths to file
                contents (bytes as `Nat`);
  * `ioError` — the set of paths on which the OS metadata call fails
                (e.g. permission denied), so that `Path::exists()` semantics
                can be stated faithfully;
  * `rmError` — the set of paths on which the OS unlink call fails even when
                the file is present (e.g. no write permission on the
                directory), so that `remove_file`'s propagated errors can be
                stated faithfully;
  * `net`     — the log of HTTP GET requests issued, in order.

Every operation of the source is a pure function from `World` (and, for the
transfer engine, the environment's HTTP response given as a parameter) to a
result paired with the next `World`.  Progress-bar machinery
(`indicatif::ProgressBar`, `MultiProgress`) only writes to the terminal and
never touches `World`; it is carried as the `Verbose` mode but has no state
effect, exactly as in the source.
-/

/-- The program-visible state: local filesystem, paths whose metadata check
errors out, paths whose deletion errors out despite presence, and the log of
issued HTTP requests. -/
structure World where
  fs : List (String × List Nat)
  ioError : List String
  rmError : List String
  net : List String
deriving DecidableEq

/-- Contents of the file at `p`, if present (first binding wins, as for a map). -/
def fsLookup (w : World) (p : String) : Option (List Nat) :=
  (w.fs.find? (fun e => e.1 == p)).map (fun e => e.2)

/-- Whether a file is really present at `p`. -/
def fsHasFile (w : World) (p : String) : Bool :=
  (fsLookup w p).isSome

/-- Create or overwrite the file at `p` with contents `c`
(`tokio::fs::File::create` truncates). -/
def fsSet (w : World) (p : String) (c : List Nat) : World :=
  { w with fs := (p, c) :: w.fs.filter (fun e => e.1 != p) }

/-- Append a chunk of bytes to the file at `p` (one buffered `write`). -/
def fsAppend (w : World) (p : String) (chunk : List Nat) : World :=
  match fsLookup w p with
  | some c => fsSet w p (c ++ chunk)
  | none => fsSet w p chunk

/-- `std::fs::metadata(p)`: fails on an OS error for `p`, fails with
"not found" when no file is there, succeeds otherwise. -/
def fsMetadata (w : World) (p : String) : Except String Unit :=
  if w.ioError.contains p then Except.error "permission denied"
  else if fsHasFile w p then Except.ok ()
  else Except.error "No such file or directory"

/-- Rust `Path::exists()`: true iff the metadata call succeeds; any error of
the check itself (not only "not found") is reported as `false`. -/
def pathExists (w : World) (p : String) : Bool :=
  match fsMetadata w p with
  | Except.ok _ => true
  | Except.error _ => false

/-- `std::fs::remove_file`: fails on an OS unlink error for `p` (possible
even when the file is present), deletes the file at `p` otherwise, or fails
when absent. -/
def fsRemoveFile (w : World) (p : String) : Except String World :=
  if w.rmError.contains p then Except.error "permission denied"
  else if fsHasFile w p then
    Except.ok { w with fs := w.fs.filter (fun e => e.1 != p) }
  else Except.error "No such file or directory"

/-- The `LocalFile` enum of the source. -/
inductive LocalFile where
  | Exists
  | None
deriving DecidableEq

/-- The `Checksum` enum of the source (declared, never consumed by the core). -/
inductive Checksum where
  | None
  | Hash (h : String)
deriving DecidableEq

/-- The `Verbose` enum.  The `Ext`/`Int` payloads (`ProgressBar`,
`MultiProgress`) are terminal-display handles with no `World` effect and are
dropped from the model. -/
inductive Verbose where
  | Quiet
  | Loud
  | Ext
  | Int
deriving DecidableEq

/-- The `DownloadInfo` struct: file name, server base URL, local directory. -/
structure DownloadInfo where
  filename : String
  server : String
  localpath : String
deriving DecidableEq

/-- `DownloadInfo::new`. -/
def DownloadInfo.new (filename server localpath : String) : DownloadInfo :=
  { filename := filename, server := server, localpath := localpath }

/-- `DownloadInfo::localfile`: local directory ++ file name. -/
def DownloadInfo.localfile (d : DownloadInfo) : Option String :=
  some (d.localpath ++ d.filename)

/-- `DownloadInfo::serverfile`: server base ++ file name. -/
def DownloadInfo.serverfile (d : DownloadInfo) : Option String :=
  some (d.server ++ d.filename)

/-- `DownloadInfo::is_local`: `Path::new(&localfile().unwrap()).exists()`.
The `unwrap` is total because `localfile` always returns `some`; it is
modelled with `Option.getD ""`, which agrees on that value. -/
def DownloadInfo.is_local (d : DownloadInfo) (w : World) : Option LocalFile :=
  if pathExists w (d.localfile.getD "") then some LocalFile.Exists
  else some LocalFile.None

/-- `DownloadInfo::remove_local`: delete the local file when `is_local`
reports it present, no-op when absent, error when `is_local` yields nothing. -/
def DownloadInfo.remove_local (d : DownloadInfo) (w : World) :
    Except String Unit × World :=
  let localfile := match d.localfile with
    | some lf => lf
    | none => ""
  match d.is_local w with
  | some LocalFile.Exists =>
      match fsRemoveFile w localfile with
      | Except.ok w' => (Except.ok (), w')
      | Except.error e => (Except.error e, w)
  | some LocalFile.None => (Except.ok (), w)
  | none => (Except.error "Failed to calc is_local", w)

/-- The `Downloadable` trait, as a trait object: its only required method is
`download_info`, and every provided method is derived from it, so a value of
the trait is determined by that one field. -/
structure Downloadable where
  download_info : Option DownloadInfo
deriving DecidableEq

/-- Provided method `Downloadable::localfile`. -/
def Downloadable.localfile (i : Downloadable) : Option String :=
  match i.download_info with
  | some dl => dl.localfile
  | none => none

/-- Provided method `Downloadable::serverfile`. -/
def Downloadable.serverfile (i : Downloadable) : Option String :=
  match i.download_info with
  | some dl => dl.serverfile
  | none => none

/-- Provided method `Downloadable::is_local`. -/
def Downloadable.is_local (i : Downloadable) (w : World) : Option LocalFile :=
  match i.download_info with
  | some dl => dl.is_local w
  | none => none

/-- Provided method `Downloadable::remove_local`. -/
def Downloadable.remove_local (i : Downloadable) (w : World) :
    Except String Unit × World :=
  match i.download_info with
  | some dl => dl.remove_local w
  | none => (Except.error "No DL Info", w)

/-- An HTTP response as the transfer engine consumes it: the declared content
length (if any), the successive non-empty results of `response.chunk()`, and
an optional error ending the stream after those chunks. -/
structure Response where
  content_length : Option Nat
  chunks : List (List Nat)
  stream_err : Option String
deriving DecidableEq

/-- The transfer engine `download(dl, verbose)`.  The environment's reply to
the single GET request is passed in as `resp` (`Except.error` for a failed
`send()`).  Faithful to the source: the server path is resolved first, then
the local path, and only then is the request issued (logged in `net`); the
content length defaults to 0 and feeds only the progress display; the local
file is created (truncating) and each chunk is appended by the buffered
writer; a stream error aborts after the chunks already written; the final
flush and `pb.finish()` have no further `World` effect. -/
def download (dl : Downloadable) (verbose : Verbose)
    (resp : Except String Response) (w : World) : Except String Unit × World :=
  match dl.serverfile with
  | none => (Except.error "Failed to get server path", w)
  | some serverpath =>
    match dl.localfile with
    | none => (Except.error "Failed to get local path", w)
    | some localfilepath =>
      let w1 : World := { w with net := w.net ++ [serverpath] }
      match resp with
      | Except.error e => (Except.error e, w1)
      | Except.ok response =>
        let w2 := fsSet w1 localfilepath []
        let w3 := response.chunks.foldl
          (fun wa chunk => fsAppend wa localfilepath chunk) w2
        match response.stream_err with
        | some e => (Except.error e, w3)
        | none => (Except.ok (), w3)

/-- The `MultiDownload` trait, as a trait object over `Downloadable` trait
objects. -/
structure MultiDownload where
  download_pool : Option (List Downloadable)

/-- Body of one task spawned by `download_all`.  In the source the task adds a
row to the shared progress display (a terminal-only effect, serialized by the
mutex around the `MultiProgress` handle) and then evaluates
`download(&dl, Verbose::Quiet)` as a bare expression: in Rust this only
constructs the future, which is dropped at the semicolon without ever being
polled, so none of `download`'s effects occur.  The task always completes
with `()`. -/
def spawned_task (dl : Downloadable) (verbose : Verbose) (w : World) :
    Unit × World :=
  ((), w)

/-- Spawning one task per item and `join_all`-ing the handles: the list of
completed task results together with the final `World`.  The tasks are
mutually independent (each would touch only its own paths), so the join is
modelled as a fold in spawn order. -/
def spawned_results (dls : List Downloadable) (verbose : Verbose) (w : World) :
    List Unit × World :=
  dls.foldl
    (fun acc dl =>
      let r := spawned_task dl verbose acc.2
      (acc.1 ++ [r.1], r.2))
    ([], w)

/-- The orchestrator `download_all(pool, verbose)`: error when the provider
yields no pool; otherwise spawn one task per item, await them all, and return
`Ok(())` (the trailing `mp.lock()` drops its guard immediately). -/
def download_all (pool : MultiDownload) (verbose : Verbose) (w : World) :
    Except String Unit × World :=
  match pool.download_pool with
  | none => (Except.error "No download pool", w)
  | some dls => (Except.ok (), (spawned_results dls verbose w).2)

/-! ### `src/alignments.rs`: the concrete alignment provider -/

/-- Constant `SERVER` of `alignments.rs`. -/
def SERVER : String :=
  "https://ftp.ncbi.nlm.nih.gov/genomes/refseq/vertebrate_mammalian/Homo_sapiens/reference/GCF_000001405.40_GRCh38.p14/"

/-- Constant `MD5FILE` of `alignments.rs` (configuration, never consumed). -/
def MD5FILE : String := "md5checksums.txt"

/-- Constant `KNOWNFILE` of `alignments.rs`. -/
def KNOWNFILE : String := "GCF_000001405.40_GRCh38.p14_knownrefseq_alns.bam"

/-- Constant `MODELFILE` of `alignments.rs`. -/
def MODELFILE : String := "GCF_000001405.40_GRCh38.p14_modelrefseq_alns.bam"

/-- Constant `LOCALPATH` of `alignments.rs`. -/
def LOCALPATH : String := "downloads/"

/-- The `AlnType` enum. -/
inductive AlnType where
  | Known
  | Model
deriving DecidableEq

/-- The `BaiFile` struct. -/
structure BaiFile where
  dlinfo : DownloadInfo
deriving DecidableEq

/-- `BaiFile::new`. -/
def BaiFile.new (filename server localpath : String) : BaiFile :=
  { dlinfo := DownloadInfo.new filename server localpath }

/-- The `BamFile` struct: its own descriptor plus the nested `.bai` index
file. -/
structure BamFile where
  dlinfo : DownloadInfo
  aln_type : AlnType
  bai : BaiFile
deriving DecidableEq

/-- `BamFile::new`: the index file's name is the data file's name with a
literal `.bai` appended. -/
def BamFile.new (filename server localpath : String) (aln_type : AlnType) :
    BamFile :=
  { dlinfo := DownloadInfo.new filename server localpath
    aln_type := aln_type
    bai := BaiFile.new (filename ++ ".bai") server localpath }

/-- The `Alns` struct. -/
structure Alns where
  known : BamFile
  model : BamFile
deriving DecidableEq

/-- `Alns::new`. -/
def Alns.new (known model : BamFile) : Alns :=
  { known := known, model := model }

/-- The lazily initialized `ALIGNMENTS` singleton. -/
def ALIGNMENTS : Alns :=
  Alns.new
    (BamFile.new KNOWNFILE (SERVER ++ "RefSeq_transcripts_alignments/")
      LOCALPATH AlnType.Known)
    (BamFile.new MODELFILE (SERVER ++ "RefSeq_transcripts_alignments/")
      LOCALPATH AlnType.Model)

/-- `impl Downloadable for BamFile`. -/
def BamFile.download_info (f : BamFile) : Option DownloadInfo :=
  some f.dlinfo

/-- `impl Downloadable for BaiFile`. -/
def BaiFile.download_info (f : BaiFile) : Option DownloadInfo :=
  some f.dlinfo

/-- The `AlnFileType` wrapper enum over references to the two item kinds. -/
inductive AlnFileType where
  | BAI : BaiFile → AlnFileType
  | BAM : BamFile → AlnFileType
deriving DecidableEq

/-- `impl Downloadable for AlnFileType`: dispatch to the wrapped item. -/
def AlnFileType.download_info : AlnFileType → Option DownloadInfo
  | AlnFileType.BAI fl => fl.download_info
  | AlnFileType.BAM fi => fi.download_info

/-- Whether the wrapper holds a primary (BAM) item. -/
def AlnFileType.isBam : AlnFileType → Bool
  | AlnFileType.BAM _ => true
  | AlnFileType.BAI _ => false

/-- View an `AlnFileType` as a `Downloadable` trait object. -/
def AlnFileType.toDownloadable (a : AlnFileType) : Downloadable :=
  { download_info := a.download_info }

/-- `impl MultiDownload for Alns`: the fixed four-element pool. -/
def Alns.download_pool (a : Alns) : Option (List AlnFileType) :=
  some
    [AlnFileType.BAM a.known,
     AlnFileType.BAM a.model,
     AlnFileType.BAI a.known.bai,
     AlnFileType.BAI a.model.bai]

/-- View an `Alns` as a `MultiDownload` trait object. -/
def Alns.toMultiDownload (a : Alns) : MultiDownload :=
  { download_pool := a.download_pool.map (fun l => l.map AlnFileType.toDownloadable) }

/-! ### Helper lemmas about the filesystem model -/

/-- Reading back a just-written file. -/
theorem fsLookup_fsSet_self (w : World) (p : String) (c : List Nat) :
    fsLookup (fsSet w p c) p = some c := by
  simp [fsLookup, fsSet]

/-- Reading back after appending one chunk. -/
theorem fsLookup_fsAppend_self (w : World) (p : String) (c chunk : List Nat)
    (h : fsLookup w p = some c) :
    fsLookup (fsAppend w p chunk) p = some (c ++ chunk) := by
  simp [fsAppend, h, fsLookup_fsSet_self]

/-- After the write loop, the file holds its previous contents followed by
every chunk in order. -/
theorem fsLookup_writeChunks (chunks : List (List Nat)) (p : String) :
    ∀ (w : World) (c : List Nat), fsLookup w p = some c →
      fsLookup (chunks.foldl (fun wa chunk => fsAppend wa p chunk) w) p
        = some (c ++ chunks.flatten) := by
  induction chunks with
  | nil => intro w c h; simpa using h
  | cons ch chunks ih =>
    intro w c h
    have h1 : fsLookup (fsAppend w p ch) p = some (c ++ ch) :=
      fsLookup_fsAppend_self w p c ch h
    simpa [List.append_assoc] using ih (fsAppend w p ch) (c ++ ch) h1

/-- A filter that drops every binding of `p` leaves nothing for `find?` at
`p` to return. -/
theorem find_filter_ne (l : List (String × List Nat)) (p : String) :
    (l.filter (fun e => e.1 != p)).find? (fun e => e.1 == p) = none := by
  induction l with
  | nil => rfl
  | cons a l ih =>
    by_cases hp : a.1 = p
    · simp [List.filter_cons, hp, ih]
    · rw [List.filter_cons, if_pos (by simp [hp]),
        List.find?_cons_of_neg _ (by simp [hp])]
      exact ih

/-- Deleting `p` from the filesystem really removes it. -/
theorem fsHasFile_after_remove (w : World) (p : String) :
    fsHasFile { w with fs := w.fs.filter (fun e => e.1 != p) } p = false := by
  simp [fsHasFile, fsLookup, find_filter_ne]

/-- `Path::exists()` reports true exactly when the metadata check can be
performed (no OS error) and a file is really there. -/
theorem pathExists_true_iff (w : World) (p : String) :
    pathExists w p = true ↔
      (w.ioError.contains p = false ∧ fsHasFile w p = true) := by
  unfold pathExists fsMetadata
  by_cases h1 : p ∈ w.ioError <;> by_cases h2 : fsHasFile w p <;>
    simp [h1, h2]

/-- `Path::exists()` reports false whenever no file is there, whatever the
OS errors. -/
theorem pathExists_false_of (w : World) (p : String)
    (h : fsHasFile w p = false) : pathExists w p = false := by
  unfold pathExists fsMetadata
  by_cases h1 : p ∈ w.ioError <;> simp [h1, h]

/-- The fold underlying `spawned_results`: every task completes with `()`
and the `World` is untouched (no spawned task awaits its `download` future). -/
theorem spawned_results_aux (dls : List Downloadable) (v : Verbose) :
    ∀ acc : List Unit × World,
      dls.foldl
          (fun acc dl =>
            let r := spawned_task dl v acc.2
            (acc.1 ++ [r.1], r.2))
          acc
        = (acc.1 ++ List.replicate dls.length (), acc.2) := by
  induction dls with
  | nil => intro acc; simp
  | cons d ds ih =>
    intro acc
    rw [List.foldl_cons, ih]
    simp [spawned_task, List.replicate_succ]

/-- `spawned_results` yields one completed `()` result per item and leaves
the `World` unchanged. -/
theorem spawned_results_spec (dls : List Downloadable) (v : Verbose)
    (w : World) :
    spawned_results dls v w = (List.replicate dls.length (), w) := by
  unfold spawned_results
  rw [spawned_results_aux]
  simp

/-! ### Concrete sample values used by witnesses and counterexamples -/

/-- A sample descriptor. -/
def sampleInfo : DownloadInfo :=
  DownloadInfo.new "f.bam" "https://example.org/" "downloads/"

/-- A sample item backed by `sampleInfo`. -/
def sampleItem : Downloadable := { download_info := some sampleInfo }

/-- An item with no backing descriptor (representable, never constructed by
the concrete providers). -/
def noInfoItem : Downloadable := { download_info := none }

/-- A provider whose pool is one valid item. -/
def samplePool : MultiDownload := { download_pool := some [sampleItem] }

/-- A provider whose pool is present but empty. -/
def emptyPool : MultiDownload := { download_pool := some [] }

/-- A provider that yields no pool at all. -/
def nonePool : MultiDownload := { download_pool := none }

/-- A provider mixing a descriptor-less item with a valid one. -/
def mixedPool : MultiDownload :=
  { download_pool := some [noInfoItem, sampleItem] }

/-- The empty world. -/
def w0 : World := { fs := [], ioError := [], rmError := [], net := [] }

/-- A world where `sampleItem`'s local file is present. -/
def w1 : World :=
  { fs := [("downloads/f.bam", [7, 7, 7])], ioError := [], rmError := [],
    net := [] }

/-- A world where `sampleItem`'s local file is present but the metadata
check on its path fails with an OS error. -/
def errWorld : World :=
  { fs := [("downloads/f.bam", [1])], ioError := ["downloads/f.bam"],
    rmError := [], net := [] }

/-- A world where `sampleItem`'s local file is present and the metadata
check succeeds, but deleting it fails with an OS error. -/
def rmWorld : World :=
  { fs := [("downloads/f.bam", [1])], ioError := [],
    rmError := ["downloads/f.bam"], net := [] }

/-- A sample successful response: content length 4, two chunks of 3 and 1
bytes, clean end of stream. -/
def sampleResp : Response :=
  { content_length := some 4, chunks := [[1, 2, 3], [4]], stream_err := none }

/-! ### Claims -/

/-- Claim C1: for every provider whose `download_pool()` returns `Some(list)`
— including a non-empty list — `download_all` returns `Ok(())` with the local
filesystem and the network log untouched: each spawned task only constructs
the `download` future and never awaits it, so no HTTP request is issued and
no local file is created or written. -/
theorem download_all_frame (pool : MultiDownload) (v : Verbose) (w : World)
    (dls : List Downloadable) (h : pool.download_pool = some dls) :
    download_all pool v w = (Except.ok (), w) := by
  simp [download_all, h, spawned_results_spec]

/-- Witness for C1 at a provider with a non-empty pool and the empty world. -/
theorem download_all_frame_witness :
    samplePool.download_pool = some [sampleItem] ∧
    download_all samplePool Verbose.Loud w0 = (Except.ok (), w0) :=
  ⟨rfl, download_all_frame samplePool Verbose.Loud w0 [sampleItem] rfl⟩

/-- Claim C2: whenever `download` succeeds, the local file named by the item
holds exactly the bytes streamed from the response body, so its size is the
sum of the chunk lengths. -/
theorem download_size_eq_streamed (dl : Downloadable) (v : Verbose)
    (r : Response) (w : World)
    (h : (download dl v (Except.ok r) w).1 = Except.ok ()) :
    ∃ p, dl.localfile = some p ∧
      (fsLookup (download dl v (Except.ok r) w).2 p).map List.length
        = some ((r.chunks.map List.length).sum) := by
  obtain ⟨info⟩ := dl
  cases info with
  | none =>
    exact absurd h (by simp [download, Downloadable.serverfile])
  | some d =>
    refine ⟨d.localpath ++ d.filename, rfl, ?_⟩
    cases hs : r.stream_err with
    | some e =>
      exact absurd h (by simp [download, Downloadable.serverfile,
        Downloadable.localfile, DownloadInfo.serverfile,
        DownloadInfo.localfile, hs])
    | none =>
      have hset : fsLookup
          (fsSet { w with net := w.net ++ [d.server ++ d.filename] }
            (d.localpath ++ d.filename) [])
          (d.localpath ++ d.filename) = some [] :=
        fsLookup_fsSet_self _ _ _
      have hw := fsLookup_writeChunks r.chunks (d.localpath ++ d.filename)
        (fsSet { w with net := w.net ++ [d.server ++ d.filename] }
          (d.localpath ++ d.filename) []) [] hset
      simp only [download, Downloadable.serverfile, Downloadable.localfile,
        DownloadInfo.serverfile, DownloadInfo.localfile, hs]
      rw [hw]
      simp [List.length_flatten]

/-- Witness for C2 at a concrete 4-byte two-chunk response. -/
theorem download_size_eq_streamed_witness :
    (download sampleItem Verbose.Quiet (Except.ok sampleResp) w0).1
      = Except.ok () ∧
    ∃ p, sampleItem.localfile = some p ∧
      (fsLookup (download sampleItem Verbose.Quiet
          (Except.ok sampleResp) w0).2 p).map List.length
        = some ((sampleResp.chunks.map List.length).sum) :=
  ⟨rfl, download_size_eq_streamed sampleItem Verbose.Quiet sampleResp w0 rfl⟩

/-- Claim C3 counterexample: a provider whose pool is present but empty does
NOT fail — `download_all` returns `Ok(())`, not the "No download pool"
error. -/
theorem download_all_empty_pool_ok :
    (download_all emptyPool Verbose.Quiet w0).1 = Except.ok () ∧
    (download_all emptyPool Verbose.Quiet w0).1
      ≠ Except.error "No download pool" := by
  refine ⟨rfl, ?_⟩
  intro hc
  exact Except.noConfusion hc

/-- Claim C3 (amended): `download_all` fails with "No download pool" exactly
when the provider yields no pool at all (`None`); a present-but-empty pool
succeeds with nothing spawned and the world unchanged. -/
theorem download_all_error_iff_no_pool (pool : MultiDownload) (v : Verbose)
    (w : World) :
    ((download_all pool v w).1 = Except.error "No download pool" ↔
      pool.download_pool = none) ∧
    (pool.download_pool = some [] →
      download_all pool v w = (Except.ok (), w)) := by
  cases hp : pool.download_pool with
  | none => simp [download_all, hp]
  | some dls =>
    refine ⟨by simp [download_all, hp], ?_⟩
    intro h
    injection h with h
    subst h
    simp [download_all, hp, spawned_results_spec]

/-- Witness for the amended C3 at a pool-less provider. -/
theorem download_all_error_iff_no_pool_witness :
    (download_all nonePool Verbose.Quiet w0).1
      = Except.error "No download pool" :=
  (download_all_error_iff_no_pool nonePool Verbose.Quiet w0).1.mpr rfl

/-- Claim C4 counterexample: at a path where the presence check itself
cannot be performed (`fsMetadata` reports an OS error) while the file is in
fact present, `is_local` does not fail: `Path::exists()` swallows the error
and the descriptor is reported absent. -/
theorem is_local_swallows_check_error :
    fsMetadata errWorld "downloads/f.bam" = Except.error "permission denied" ∧
    fsHasFile errWorld "downloads/f.bam" = true ∧
    DownloadInfo.is_local sampleInfo errWorld = some LocalFile.None := by
  refine ⟨rfl, by decide, by decide⟩

/-- Claim C4 (amended): `is_local` never fails — it always returns a value,
reporting present exactly when the `exists()`-style check returns true.  When
the metadata check succeeds, present coincides with a file really being at
`localPath`; when the check itself cannot be performed, the error is
swallowed and absent is reported instead of a hard error. -/
theorem is_local_total_spec (d : DownloadInfo) (w : World) :
    d.is_local w =
      some (if pathExists w (d.localpath ++ d.filename) then LocalFile.Exists
        else LocalFile.None) ∧
    (w.ioError.contains (d.localpath ++ d.filename) = false →
      (d.is_local w = some LocalFile.Exists ↔
        fsHasFile w (d.localpath ++ d.filename) = true)) ∧
    (w.ioError.contains (d.localpath ++ d.filename) = true →
      d.is_local w = some LocalFile.None) := by
  have hloc : d.localfile.getD "" = d.localpath ++ d.filename := rfl
  refine ⟨?_, ?_, ?_⟩
  · unfold DownloadInfo.is_local
    rw [hloc]
    split <;> rfl
  · intro hio
    unfold DownloadInfo.is_local
    rw [hloc]
    cases hhas : fsHasFile w (d.localpath ++ d.filename) with
    | false =>
      rw [pathExists_false_of w _ hhas]
      simp
    | true =>
      have : pathExists w (d.localpath ++ d.filename) = true :=
        (pathExists_true_iff w _).mpr ⟨hio, hhas⟩
      rw [this]
      simp
  · intro hio
    unfold DownloadInfo.is_local
    rw [hloc]
    have : pathExists w (d.localpath ++ d.filename) = false := by
      unfold pathExists fsMetadata
      have hm : d.localpath ++ d.filename ∈ w.ioError := by
        simpa using hio
      simp [hm]
    rw [this]
    simp

/-- Witness for the amended C4 at the empty world, where the check succeeds
and reports absence. -/
theorem is_local_total_spec_witness :
    DownloadInfo.is_local sampleInfo w0 = some LocalFile.None ∧
    fsHasFile w0 ("downloads/" ++ "f.bam") = false :=
  ⟨by
    have h := (is_local_total_spec sampleInfo w0).1
    simpa using h,
   by decide⟩

/-- Claim C5: an item missing its remote URL or its local path makes
`download` fail immediately — with one of the two missing-path errors — and
the whole `World`, in particular the network request log, is unchanged: no
HTTP request is issued. -/
theorem download_missing_path_no_network (dl : Downloadable) (v : Verbose)
    (resp : Except String Response) (w : World)
    (h : dl.serverfile = none ∨ dl.localfile = none) :
    (download dl v resp w).2 = w ∧
    ((download dl v resp w).1 = Except.error "Failed to get server path" ∨
      (download dl v resp w).1 = Except.error "Failed to get local path") := by
  obtain ⟨info⟩ := dl
  cases info with
  | none => simp [download, Downloadable.serverfile]
  | some d =>
    rcases h with h | h
    · simp [Downloadable.serverfile, DownloadInfo.serverfile] at h
    · simp [Downloadable.localfile, DownloadInfo.localfile] at h

/-- Witness for C5 at the descriptor-less item. -/
theorem download_missing_path_no_network_witness :
    (download noInfoItem Verbose.Quiet (Except.ok sampleResp) w0).2 = w0 ∧
    ((download noInfoItem Verbose.Quiet (Except.ok sampleResp) w0).1
        = Except.error "Failed to get server path" ∨
      (download noInfoItem Verbose.Quiet (Except.ok sampleResp) w0).1
        = Except.error "Failed to get local path") :=
  download_missing_path_no_network noInfoItem Verbose.Quiet
    (Except.ok sampleResp) w0 (Or.inl rfl)

/-- Claim C6 counterexample: the first `remove_local` call neither always
deletes a present file nor always succeeds.  At a world where the file is
present but the metadata check on its path errors, the swallowed check
reports absent, the call returns success and the file survives; at a world
where the file is present and the check succeeds but deletion itself fails,
the first call returns the propagated filesystem error. -/
theorem remove_local_present_not_deleted :
    fsHasFile errWorld "downloads/f.bam" = true ∧
    DownloadInfo.remove_local sampleInfo errWorld
      = (Except.ok (), errWorld) ∧
    fsHasFile (DownloadInfo.remove_local sampleInfo errWorld).2
      "downloads/f.bam" = true ∧
    fsHasFile rmWorld "downloads/f.bam" = true ∧
    (DownloadInfo.remove_local sampleInfo rmWorld).1
      = Except.error "permission denied" :=
  ⟨rfl, rfl, rfl, rfl, rfl⟩

/-- Claim C6 (amended): `remove_local` no-ops successfully whenever the
`exists()` presence check reports absent — even when the file is in fact
present behind a failing check, which is then left in place; it deletes the
file and succeeds when the check reports it and deletion succeeds; it
propagates the filesystem error when deletion fails despite the check
reporting the file; and after any successful call, an immediately following
second call succeeds and changes nothing. -/
theorem remove_local_cases_and_idempotent (d : DownloadInfo) (w : World) :
    (pathExists w (d.localpath ++ d.filename) = false →
      d.remove_local w = (Except.ok (), w)) ∧
    (pathExists w (d.localpath ++ d.filename) = true →
      w.rmError.contains (d.localpath ++ d.filename) = false →
      (d.remove_local w).1 = Except.ok () ∧
      fsHasFile (d.remove_local w).2 (d.localpath ++ d.filename) = false) ∧
    (pathExists w (d.localpath ++ d.filename) = true →
      w.rmError.contains (d.localpath ++ d.filename) = true →
      d.remove_local w = (Except.error "permission denied", w)) ∧
    ((d.remove_local w).1 = Except.ok () →
      d.remove_local (d.remove_local w).2
        = (Except.ok (), (d.remove_local w).2)) := by
  have hloc : d.localfile.getD "" = d.localpath ++ d.filename := rfl
  cases hpe : pathExists w (d.localpath ++ d.filename) with
  | false =>
    have h1 : d.remove_local w = (Except.ok (), w) := by
      simp [DownloadInfo.remove_local, DownloadInfo.is_local, hloc, hpe,
        DownloadInfo.localfile]
    refine ⟨fun _ => h1, fun hc => ?_, fun hc => ?_, fun _ => ?_⟩
    · simp at hc
    · simp at hc
    · simp [h1]
  | true =>
    obtain ⟨hio, hhas⟩ :=
      (pathExists_true_iff w (d.localpath ++ d.filename)).mp hpe
    cases hrm : w.rmError.contains (d.localpath ++ d.filename) with
    | false =>
      have hrm' : ¬ (d.localpath ++ d.filename) ∈ w.rmError := by
        simpa using hrm
      have h1 : d.remove_local w =
          (Except.ok (),
            { w with
              fs := w.fs.filter (fun e => e.1 != (d.localpath ++ d.filename)) }) := by
        simp [DownloadInfo.remove_local, DownloadInfo.is_local, hloc, hpe,
          DownloadInfo.localfile, fsRemoveFile, hrm', hhas]
      have h2 : fsHasFile
          { w with
            fs := w.fs.filter (fun e => e.1 != (d.localpath ++ d.filename)) }
          (d.localpath ++ d.filename) = false :=
        fsHasFile_after_remove w (d.localpath ++ d.filename)
      have h3 : pathExists
          { w with
            fs := w.fs.filter (fun e => e.1 != (d.localpath ++ d.filename)) }
          (d.localpath ++ d.filename) = false :=
        pathExists_false_of _ _ h2
      have h4 : d.remove_local
          { w with
            fs := w.fs.filter (fun e => e.1 != (d.localpath ++ d.filename)) } =
          (Except.ok (),
            { w with
              fs := w.fs.filter (fun e => e.1 != (d.localpath ++ d.filename)) }) := by
        simp [DownloadInfo.remove_local, DownloadInfo.is_local, hloc, h3,
          DownloadInfo.localfile]
      refine ⟨fun hc => ?_, fun _ _ => ⟨by simp [h1], ?_⟩, fun _ hc => ?_,
        fun _ => ?_⟩
      · simp at hc
      · rw [h1]
        exact h2
      · simp at hc
      · simp [h1, h4]
    | true =>
      have hrm' : (d.localpath ++ d.filename) ∈ w.rmError := by
        simpa using hrm
      have h1 : d.remove_local w = (Except.error "permission denied", w) := by
        simp [DownloadInfo.remove_local, DownloadInfo.is_local, hloc, hpe,
          DownloadInfo.localfile, fsRemoveFile, hrm']
      refine ⟨fun hc => ?_, fun _ hc => ?_, fun _ _ => h1, fun hOk => ?_⟩
      · simp at hc
      · simp at hc
      · rw [h1] at hOk
        simp at hOk

/-- Witness for the amended C6 at a world where the sample item's local file
is present and deletable: the first call succeeds and deletes it, and the
second call succeeds changing nothing. -/
theorem remove_local_cases_and_idempotent_witness :
    (DownloadInfo.remove_local sampleInfo w1).1 = Except.ok () ∧
    fsHasFile (DownloadInfo.remove_local sampleInfo w1).2
      (sampleInfo.localpath ++ sampleInfo.filename) = false ∧
    DownloadInfo.remove_local sampleInfo
        (DownloadInfo.remove_local sampleInfo w1).2
      = (Except.ok (), (DownloadInfo.remove_local sampleInfo w1).2) :=
  ⟨((remove_local_cases_and_idempotent sampleInfo w1).2.1
      (by decide) (by decide)).1,
   ((remove_local_cases_and_idempotent sampleInfo w1).2.1
      (by decide) (by decide)).2,
   (remove_local_cases_and_idempotent sampleInfo w1).2.2.2
     (((remove_local_cases_and_idempotent sampleInfo w1).2.1
        (by decide) (by decide)).1)⟩

/-- Claim C7: with any present pool, `download_all` completes one spawned
unit per item — `join_all` yields one result per handle — and returns
`Ok(())` regardless of what the individual transfers would have done; no
per-item error is surfaced to the caller. -/
theorem download_all_joins_all_and_succeeds (pool : MultiDownload)
    (v : Verbose) (w : World) (dls : List Downloadable)
    (h : pool.download_pool = some dls) :
    (spawned_results dls v w).1.length = dls.length ∧
    (download_all pool v w).1 = Except.ok () := by
  constructor
  · rw [spawned_results_spec]
    simp
  · simp [download_all, h]

/-- Witness for C7 at a pool mixing a descriptor-less item (whose transfer
would fail) with a valid one: both units complete and the batch succeeds. -/
theorem download_all_joins_all_and_succeeds_witness :
    (spawned_results [noInfoItem, sampleItem] Verbose.Int w0).1.length = 2 ∧
    (download_all mixedPool Verbose.Int w0).1 = Except.ok () :=
  download_all_joins_all_and_succeeds mixedPool Verbose.Int w0
    [noInfoItem, sampleItem] rfl

/-- Claim C8: for every descriptor, the remote URL is exactly the server base
concatenated with the file name and the local path exactly the local
directory concatenated with the file name — plain string concatenation, no
separator normalization — and neither operation ever fails. -/
theorem serverfile_localfile_exact (d : DownloadInfo) :
    d.serverfile = some (d.server ++ d.filename) ∧
    d.localfile = some (d.localpath ++ d.filename) :=
  ⟨rfl, rfl⟩

/-- Claim C9: an item with no backing descriptor fails all four delegated
operations — remote URL, local path, existence check, removal — with the
"missing download info" outcome, performing no action (the `World` is
untouched). -/
theorem no_info_all_ops_fail (i : Downloadable) (w : World)
    (h : i.download_info = none) :
    i.serverfile = none ∧ i.localfile = none ∧ i.is_local w = none ∧
    i.remove_local w = (Except.error "No DL Info", w) := by
  simp [Downloadable.serverfile, Downloadable.localfile,
    Downloadable.is_local, Downloadable.remove_local, h]

/-- Witness for C9 at the descriptor-less item and the empty world. -/
theorem no_info_all_ops_fail_witness :
    noInfoItem.serverfile = none ∧ noInfoItem.localfile = none ∧
    noInfoItem.is_local w0 = none ∧
    noInfoItem.remove_local w0 = (Except.error "No DL Info", w0) :=
  no_info_all_ops_fail noInfoItem w0 rfl

/-- Claim C10: the concrete alignment provider's pool is exactly four items —
the known primary data file, the model primary data file, the known index
file, the model index file — in that fixed order (the index files' names are
the primary names with `.bai` appended). -/
theorem alignments_pool_exactly_four :
    ALIGNMENTS.download_pool.map (fun l => l.map AlnFileType.download_info) =
      some
        [some (DownloadInfo.new KNOWNFILE
            (SERVER ++ "RefSeq_transcripts_alignments/") LOCALPATH),
         some (DownloadInfo.new MODELFILE
            (SERVER ++ "RefSeq_transcripts_alignments/") LOCALPATH),
         some (DownloadInfo.new (KNOWNFILE ++ ".bai")
            (SERVER ++ "RefSeq_transcripts_alignments/") LOCALPATH),
         some (DownloadInfo.new (MODELFILE ++ ".bai")
            (SERVER ++ "RefSeq_transcripts_alignments/") LOCALPATH)] ∧
    ALIGNMENTS.download_pool.map (fun l => l.map AlnFileType.isBam) =
      some [true, true, false, false] :=
  ⟨rfl, rfl⟩
